import Mathlib

/-!
Shallow embedding of the OpenClaw research-loop registry
(`src/agents/research-loop-registry.store.ts` and the `research_loop` tool in
`src/agents/tools/research-loop-tool.ts`).

Modelling conventions:
* JavaScript numbers that the code guards with `typeof value === "number" &&
  Number.isFinite(value)` are modelled as `Option Int` (the registry only ever
  stores integral values: timestamps, rounds, ratings, scores).  A `none`
  stands for `undefined`, a missing field, a non-number, `NaN` or `±Infinity`.
* JavaScript strings are modelled as Lean `String`; `.trim()`, `.slice(0, n)`
  and `.length` are modelled by `jsTrim`, `jsSlice` and `jsLength`, which
  operate on the character sequence.
* `Map<string, ResearchLoopRecord>` is modelled as an association list in
  insertion order; `Map.get` is the first matching key, `Map.set` on an
  existing key replaces in place.
* `Array.prototype.sort(cmp)` (a stable sort by a total comparator) is
  modelled by `List.insertionSort` over the preorder induced by the
  comparator.
* `Date.now()` and the requester agent id (`resolveAgentIdFromSessionKey`)
  are injected as explicit parameters, mirroring the spec's treatment of time
  and identity as capabilities.
-/

namespace OpenClaw

/-- JS `String.prototype.trim()`: drop leading and trailing whitespace. -/
def jsTrim (s : String) : String :=
  ⟨((s.data.dropWhile Char.isWhitespace).reverse.dropWhile Char.isWhitespace).reverse⟩

/-- JS `String.prototype.slice(0, n)`: the first `n` characters. -/
def jsSlice (s : String) (n : Nat) : String := ⟨s.data.take n⟩

/-- JS `String.prototype.length`. -/
def jsLength (s : String) : Nat := s.data.length

/-- Truthiness of `value?.trim()` for an optional string `value`. -/
def trimTruthy (value : Option String) : Bool :=
  match value with
  | none => false
  | some s => jsTrim s ≠ ""

inductive ResearchLoopState where
  | active
  | awaiting_decision
  | closed
deriving DecidableEq, Repr

inductive ResearchLoopPriority where
  | low
  | normal
  | high
deriving DecidableEq, Repr

inductive ResearchLoopRecommendation where
  | cont
  | stop
  | needs_input
deriving DecidableEq, Repr

inductive ResearchLoopDecisionKind where
  | cont
  | close
deriving DecidableEq, Repr

def stateToString : ResearchLoopState → String
  | .active => "active"
  | .awaiting_decision => "awaiting_decision"
  | .closed => "closed"

structure ResearchLoopCheckpointRecord where
  round : Int
  summary : String
  critique : Option String
  recommendation : ResearchLoopRecommendation
  proposedTasks : Option (List String)
  importance : Option Int
  urgency : Option Int
  confidence : Option Int
  evidenceQuality : Option Int
  citationLinks : Option (List String)
  counterpoints : Option (List String)
  whyNow : Option String
  analysisQualityScore : Option Int
  priorityScore : Option Int
  createdAt : Int
deriving DecidableEq, Repr

structure ResearchLoopDecisionRecord where
  round : Int
  decision : ResearchLoopDecisionKind
  reason : Option String
  createdAt : Int
deriving DecidableEq, Repr

structure ResearchLoopRecord where
  loopId : String
  topic : String
  ownerAgentId : String
  state : ResearchLoopState
  currentRound : Int
  maxRounds : Int
  priority : ResearchLoopPriority
  createdAt : Int
  updatedAt : Int
  startedBySessionKey : Option String
  closedAt : Option Int
  closeReason : Option String
  checkpoints : List ResearchLoopCheckpointRecord
  decisions : List ResearchLoopDecisionRecord
deriving DecidableEq, Repr

/-! ## Store-side normalization (`research-loop-registry.store.ts`) -/

/-- Source `normalizeRating`: floor, clamp to [1, 5]; non-number / non-finite ↦ `undefined`. -/
def normalizeRating (value : Option Int) : Option Int :=
  match value with
  | none => none
  | some v =>
    if v < 1 then some 1
    else if v > 5 then some 5
    else some v

/-- Source `normalizeWhyNow`: trim, drop if empty, truncate to 280 characters. -/
def normalizeWhyNow (value : Option String) : Option String :=
  match value with
  | none => none
  | some s =>
    let trimmed := jsTrim s
    if trimmed = "" then none else some (jsSlice trimmed 280)

/-- Source `normalizeStringList`: keep string entries, trim, drop empties, cap the
item count at `maxItems`, truncate each entry to `maxChars`; an empty result
collapses to `undefined`. -/
def normalizeStringList (value : Option (List String)) (maxItems maxChars : Nat) :
    Option (List String) :=
  match value with
  | none => none
  | some entries =>
    let normalized :=
      (((entries.map jsTrim).filter (fun e => e ≠ "")).take maxItems).map
        (fun e => jsSlice e maxChars)
    if normalized.length > 0 then some normalized else none

/-- Source `normalizeQualityScore`: round, clamp to [0, 100]; non-finite ↦ `undefined`. -/
def normalizeQualityScore (value : Option Int) : Option Int :=
  match value with
  | none => none
  | some v =>
    if v < 0 then some 0
    else if v > 100 then some 100
    else some v

/-- Input record of `computeResearchLoopAnalysisQualityScore`. -/
structure AnalysisQualityInput where
  summary : String
  critique : Option String
  proposedTasks : Option (List String)
  evidenceQuality : Option Int
  citationLinks : Option (List String)
  counterpoints : Option (List String)
  whyNow : Option String
deriving DecidableEq, Repr

/-- The value accumulated in the local `score` variable of
`computeResearchLoopAnalysisQualityScore` before the final clamp: summary
length tier, critique bonus, citation tiers, counterpoint tiers,
proposed-task tiers, evidence-quality bonus, why-now bonus. -/
def analysisQualityTotal (input : AnalysisQualityInput) : Int :=
  let summaryLength : Int := jsLength (jsTrim input.summary)
  let citationCount : Int := (input.citationLinks.getD []).length
  let counterpointCount : Int := (input.counterpoints.getD []).length
  let proposedTaskCount : Int := (input.proposedTasks.getD []).length
  (if summaryLength ≥ 160 then 20
   else if summaryLength ≥ 80 then 16
   else if summaryLength ≥ 40 then 12
   else if summaryLength ≥ 20 then 8
   else 0)
  + (if trimTruthy input.critique then 20 else 0)
  + (if citationCount ≥ 3 then 25 else if citationCount ≥ 1 then 15 else 0)
  + (if counterpointCount ≥ 2 then 15 else if counterpointCount = 1 then 10 else 0)
  + (if proposedTaskCount ≥ 2 then 10 else if proposedTaskCount = 1 then 6 else 0)
  + (match input.evidenceQuality with
     | some eq => eq * 2
     | none => 0)
  + (if trimTruthy input.whyNow then 5 else 0)

/-- Source `computeResearchLoopAnalysisQualityScore`: the accumulated score with the
final clamp to [0, 100] (`Math.round` is the identity on the integral sum). -/
def computeResearchLoopAnalysisQualityScore (input : AnalysisQualityInput) : Int :=
  let score : Int := analysisQualityTotal input
  if score < 0 then 0
  else if score > 100 then 100
  else score

/-- The spec's description of the quality score (§4.2 of the specification):
the rounded sum of the seven documented contributions, clamped to [0, 100]. -/
def specAnalysisQualityScore (input : AnalysisQualityInput) : Int :=
  let summaryLength : Int := jsLength (jsTrim input.summary)
  let citationCount : Int := (input.citationLinks.getD []).length
  let counterpointCount : Int := (input.counterpoints.getD []).length
  let proposedTaskCount : Int := (input.proposedTasks.getD []).length
  let total : Int :=
    (if summaryLength ≥ 160 then 20
     else if summaryLength ≥ 80 then 16
     else if summaryLength ≥ 40 then 12
     else if summaryLength ≥ 20 then 8
     else 0)
    + (if trimTruthy input.critique then 20 else 0)
    + (if citationCount ≥ 3 then 25 else if citationCount ≥ 1 then 15 else 0)
    + (if counterpointCount ≥ 2 then 15 else if counterpointCount = 1 then 10 else 0)
    + (if proposedTaskCount ≥ 2 then 10 else if proposedTaskCount = 1 then 6 else 0)
    + (match input.evidenceQuality with
       | some eq => eq * 2
       | none => 0)
    + (if trimTruthy input.whyNow then 5 else 0)
  min 100 (max 0 total)

/-! ## Load-time repair (`loadResearchLoopRegistryFromDisk`) -/

/-- A persisted checkpoint as found on disk: every field may be missing or of
the wrong type (collapsed to `none` by the `typeof` guards in the source). -/
structure RawCheckpointRecord where
  round : Option Int
  summary : Option String
  critique : Option String
  recommendation : Option String
  proposedTasks : Option (List String)
  importance : Option Int
  urgency : Option Int
  confidence : Option Int
  evidenceQuality : Option Int
  citationLinks : Option (List String)
  counterpoints : Option (List String)
  whyNow : Option String
  analysisQualityScore : Option Int
  priorityScore : Option Int
  createdAt : Option Int
deriving DecidableEq, Repr

/-- A persisted loop record as found on disk (fields already confirmed present
and of the right primitive type are non-optional, matching the early-continue
guards on `loopId` and `topic`). -/
structure RawLoopRecord where
  loopId : String
  topic : String
  ownerAgentId : Option String
  state : Option String
  currentRound : Option Int
  maxRounds : Option Int
  priority : Option String
  createdAt : Option Int
  updatedAt : Option Int
  startedBySessionKey : Option String
  closedAt : Option Int
  closeReason : Option String
  checkpoints : List RawCheckpointRecord
  decisions : List ResearchLoopDecisionRecord
deriving Repr

/-- The per-checkpoint branch of `loadResearchLoopRegistryFromDisk`: ratings,
string lists and `whyNow` re-normalized, missing `analysisQualityScore`
recomputed, missing `priorityScore` recomputed when both ratings exist. -/
def loadCheckpointRecord (checkpoint : RawCheckpointRecord) (now : Int) :
    ResearchLoopCheckpointRecord :=
  let importance := normalizeRating checkpoint.importance
  let urgency := normalizeRating checkpoint.urgency
  let confidence := normalizeRating checkpoint.confidence
  let evidenceQuality := normalizeRating checkpoint.evidenceQuality
  let citationLinks := normalizeStringList checkpoint.citationLinks 20 500
  let counterpoints := normalizeStringList checkpoint.counterpoints 10 280
  let proposedTasks := normalizeStringList checkpoint.proposedTasks 20 280
  let whyNow := normalizeWhyNow checkpoint.whyNow
  let analysisQualityScoreRaw := normalizeQualityScore checkpoint.analysisQualityScore
  { round :=
      match checkpoint.round with
      | some r => max 1 r
      | none => 1
    summary := checkpoint.summary.getD ""
    critique := checkpoint.critique
    recommendation :=
      if checkpoint.recommendation = some "continue" then .cont
      else if checkpoint.recommendation = some "stop" then .stop
      else if checkpoint.recommendation = some "needs_input" then .needs_input
      else .needs_input
    proposedTasks
    importance
    urgency
    confidence
    evidenceQuality
    citationLinks
    counterpoints
    whyNow
    analysisQualityScore :=
      some (analysisQualityScoreRaw.getD
        (computeResearchLoopAnalysisQualityScore
          { summary := checkpoint.summary.getD ""
            critique := checkpoint.critique
            proposedTasks
            evidenceQuality
            citationLinks
            counterpoints
            whyNow }))
    priorityScore :=
      match checkpoint.priorityScore with
      | some p => some p
      | none =>
        match importance, urgency with
        | some i, some u => some (i * u)
        | _, _ => none
    createdAt := checkpoint.createdAt.getD now }

/-- The per-loop branch of `loadResearchLoopRegistryFromDisk`.  `normAgent` is
the shared `normalizeAgentId` helper (external to the registry) and
`defaultAgentId` is `DEFAULT_AGENT_ID`; both are injected.  Note that
`maxRounds` is only floored and bounded below by 1 here (`Math.max(1,
Math.floor(...))`): there is no upper clamp on the load path. -/
def loadLoopRecord (normAgent : String → String) (defaultAgentId : String)
    (record : RawLoopRecord) (now : Int) : ResearchLoopRecord :=
  { loopId := record.loopId
    topic := record.topic
    ownerAgentId := normAgent (record.ownerAgentId.getD defaultAgentId)
    state :=
      if record.state = some "active" then .active
      else if record.state = some "awaiting_decision" then .awaiting_decision
      else if record.state = some "closed" then .closed
      else .active
    currentRound :=
      match record.currentRound with
      | some r => max 1 r
      | none => 1
    maxRounds :=
      match record.maxRounds with
      | some r => max 1 r
      | none => 2
    priority :=
      if record.priority = some "low" then .low
      else if record.priority = some "normal" then .normal
      else if record.priority = some "high" then .high
      else .normal
    createdAt := record.createdAt.getD now
    updatedAt := record.updatedAt.getD now
    startedBySessionKey :=
      match record.startedBySessionKey with
      | some s => if s = "" then none else some s
      | none => none
    closedAt := record.closedAt
    closeReason :=
      match record.closeReason with
      | some s => if s = "" then none else some s
      | none => none
    checkpoints := record.checkpoints.map (loadCheckpointRecord · now)
    decisions := record.decisions }

/-! ## Tool-side normalization (`research-loop-tool.ts`) -/

inductive ResearchLoopListView where
  | all
  | needs_decision
  | needs_review
  | hot
  | stale
deriving DecidableEq, Repr

/-- Source `normalizePriority`: unknown values fall back to `normal`. -/
def normalizePriority (value : Option ResearchLoopPriority) : ResearchLoopPriority :=
  match value with
  | some .low => .low
  | some .high => .high
  | _ => .normal

/-- Source `normalizeRecommendation`: unknown values fall back to `needs_input`. -/
def normalizeRecommendation (value : Option ResearchLoopRecommendation) :
    ResearchLoopRecommendation :=
  match value with
  | some .cont => .cont
  | some .stop => .stop
  | _ => .needs_input

/-- Source `normalizeMaxRounds`: floor, clamp to [1, 20], default 2 (tool input path). -/
def normalizeMaxRounds (value : Option Int) : Int :=
  match value with
  | none => 2
  | some v =>
    if v < 1 then 1
    else if v > 20 then 20
    else v

/-- Source `normalizeStaleHours`: floor, clamp to [1, 720], default 24. -/
def normalizeStaleHours (value : Option Int) : Int :=
  match value with
  | none => 24
  | some v =>
    if v < 1 then 1
    else if v > 720 then 720
    else v

/-- Source `sanitizeStringList`: identical pipeline to the store's `normalizeStringList`. -/
def sanitizeStringList (value : Option (List String)) (maxItems maxChars : Nat) :
    Option (List String) :=
  normalizeStringList value maxItems maxChars

/-- Source `sanitizeProposedTasks`. -/
def sanitizeProposedTasks (value : Option (List String)) : Option (List String) :=
  sanitizeStringList value 20 280

/-- Source `sanitizeWhyNow`: falsy (absent or empty) ↦ `undefined`, else truncate to
280 characters (no trim on this path). -/
def sanitizeWhyNow (value : Option String) : Option String :=
  match value with
  | none => none
  | some s => if s = "" then none else some (jsSlice s 280)

/-- The effective `list` limit: `limitRaw && Number.isFinite(limitRaw) ?
Math.min(100, Math.max(1, limitRaw)) : 20`.  A raw limit of `0` is falsy in
JavaScript and therefore takes the default branch. -/
def effectiveListLimit (limitRaw : Option Int) : Int :=
  match limitRaw with
  | none => 20
  | some v => if v = 0 then 20 else min 100 (max 1 v)

/-! ## Triage helpers -/

/-- Source `resolveLatestPriorityScore`: last checkpoint's `priorityScore ?? 0`. -/
def resolveLatestPriorityScore (loop : ResearchLoopRecord) : Int :=
  ((loop.checkpoints.getLast?).bind (·.priorityScore)).getD 0

/-- Source `resolveLatestAnalysisQualityScore`: last checkpoint's score `?? 0`. -/
def resolveLatestAnalysisQualityScore (loop : ResearchLoopRecord) : Int :=
  ((loop.checkpoints.getLast?).bind (·.analysisQualityScore)).getD 0

/-- Source `checkpointNeedsReview`: no checkpoint ↦ false; else quality < 65, or
blank critique, or fewer than one citation link. -/
def checkpointNeedsReview (loop : ResearchLoopRecord) : Bool :=
  match loop.checkpoints.getLast? with
  | none => false
  | some latest =>
    if (latest.analysisQualityScore.getD 0) < 65 then true
    else if ¬ trimTruthy latest.critique then true
    else if ((latest.citationLinks.getD []).length : Int) < 1 then true
    else false

structure SpawnAdvice where
  shouldSpawn : Bool
  reason : String
  suggestedTask : Option String
deriving DecidableEq, Repr

/-- Source `buildSpawnAdvice`: the guard chain over the loop's last checkpoint. -/
def buildSpawnAdvice (loop : ResearchLoopRecord) (canContinue : Bool) : SpawnAdvice :=
  match loop.checkpoints.getLast? with
  | none => { shouldSpawn := false, reason := "No checkpoint available.", suggestedTask := none }
  | some latest =>
    if latest.recommendation ≠ .cont then
      { shouldSpawn := false
        reason := "Checkpoint recommendation is not continue."
        suggestedTask := none }
    else if ¬ canContinue then
      { shouldSpawn := false
        reason := "Max rounds reached; review or close."
        suggestedTask := none }
    else
      match latest.proposedTasks.bind List.head? with
      | none =>
        { shouldSpawn := false
          reason := "No proposed tasks to delegate."
          suggestedTask := none }
      | some task =>
        if (latest.analysisQualityScore.getD 0) < 40 then
          { shouldSpawn := false
            reason := "Analysis quality is too low; improve checkpoint quality first."
            suggestedTask := none }
        else if latest.confidence ≠ none ∧ latest.confidence.getD 0 ≥ 4 then
          { shouldSpawn := false
            reason := "Confidence is already high; delegation is optional."
            suggestedTask := none }
        else if ¬ ((latest.priorityScore.getD 0) ≥ 12 ∨ loop.priority = .high) then
          { shouldSpawn := false
            reason := "Priority score is below delegation threshold."
            suggestedTask := none }
        else
          { shouldSpawn := true
            reason := "High-priority, unresolved checkpoint with clear follow-up task."
            suggestedTask := some task }

/-- Source `toLoopDetails`: the loop view returned inside success envelopes. -/
structure LoopDetails where
  loopId : String
  topic : String
  ownerAgentId : String
  state : ResearchLoopState
  currentRound : Int
  maxRounds : Int
  priority : ResearchLoopPriority
  createdAt : Int
  updatedAt : Int
  closedAt : Option Int
  closeReason : Option String
  remainingRounds : Int
  startedBySessionKey : Option String
  lastCheckpoint : Option ResearchLoopCheckpointRecord
  checkpoints : List ResearchLoopCheckpointRecord
  decisions : List ResearchLoopDecisionRecord
deriving DecidableEq, Repr

def toLoopDetails (loop : ResearchLoopRecord) : LoopDetails :=
  { loopId := loop.loopId
    topic := loop.topic
    ownerAgentId := loop.ownerAgentId
    state := loop.state
    currentRound := loop.currentRound
    maxRounds := loop.maxRounds
    priority := loop.priority
    createdAt := loop.createdAt
    updatedAt := loop.updatedAt
    closedAt := loop.closedAt
    closeReason := loop.closeReason
    remainingRounds := max 0 (loop.maxRounds - loop.currentRound)
    startedBySessionKey := loop.startedBySessionKey
    lastCheckpoint := loop.checkpoints.getLast?
    checkpoints := loop.checkpoints
    decisions := loop.decisions }

/-- One row of the `list` projection. -/
structure LoopListEntry where
  loopId : String
  topic : String
  state : ResearchLoopState
  currentRound : Int
  maxRounds : Int
  priority : ResearchLoopPriority
  updatedAt : Int
  lastCheckpointAt : Option Int
  lastRecommendation : Option ResearchLoopRecommendation
  lastAnalysisQualityScore : Option Int
  lastCitationCount : Int
  lastPriorityScore : Option Int
  needsReview : Bool
deriving DecidableEq, Repr

def toLoopListEntry (loop : ResearchLoopRecord) : LoopListEntry :=
  let lastCheckpoint := loop.checkpoints.getLast?
  { loopId := loop.loopId
    topic := loop.topic
    state := loop.state
    currentRound := loop.currentRound
    maxRounds := loop.maxRounds
    priority := loop.priority
    updatedAt := loop.updatedAt
    lastCheckpointAt := lastCheckpoint.map (·.createdAt)
    lastRecommendation := lastCheckpoint.map (·.recommendation)
    lastAnalysisQualityScore := lastCheckpoint.bind (·.analysisQualityScore)
    lastCitationCount := ((lastCheckpoint.bind (·.citationLinks)).getD []).length
    lastPriorityScore := lastCheckpoint.bind (·.priorityScore)
    needsReview := checkpointNeedsReview loop }

/-! ## Registry and operations (`createResearchLoopTool().execute`) -/

/-- The in-memory registry: `Map<loopId, ResearchLoopRecord>` in insertion
order. -/
abbrev ResearchLoopRegistry := List (String × ResearchLoopRecord)

/-- Map lookup `registry.get(loopId)`: first entry with the given key. -/
def findLoop (registry : ResearchLoopRegistry) (loopId : String) :
    Option ResearchLoopRecord :=
  (registry.find? (fun entry => entry.1 == loopId)).map (·.2)

/-- Map update `registry.set(loopId, loop)` on an existing key: replace in place. -/
def setLoop (registry : ResearchLoopRegistry) (loopId : String)
    (loop : ResearchLoopRecord) : ResearchLoopRegistry :=
  match registry with
  | [] => []
  | entry :: rest =>
    if entry.1 = loopId then (loopId, loop) :: rest
    else entry :: setLoop rest loopId loop

/-- Insertion-order values, `Array.from(registry.values())`. -/
def registryLoops (registry : ResearchLoopRegistry) : List ResearchLoopRecord :=
  registry.map (·.2)

/-- The response envelope `{status, ...}` returned by `execute`. -/
structure ResponseEnvelope where
  status : String
  error : Option String := none
  loop : Option LoopDetails := none
  canContinue : Option Bool := none
  spawnAdvice : Option SpawnAdvice := none
  loops : Option (List LoopListEntry) := none
deriving DecidableEq, Repr

def errorEnvelope (message : String) : ResponseEnvelope :=
  { status := "error", error := some message }

/-- Source `getLoopOrError`: falsy `loopId` ↦ `loopId required`; unknown id ↦
`not found`; foreign owner ↦ `not accessible`. -/
def getLoopOrError (registry : ResearchLoopRegistry) (loopId : Option String)
    (requesterAgentId : String) : Except String ResearchLoopRecord :=
  match loopId with
  | none => .error "loopId required"
  | some id =>
    if id = "" then .error "loopId required"
    else
      match findLoop registry id with
      | none => .error ("research loop not found: " ++ id)
      | some loop =>
        if loop.ownerAgentId ≠ requesterAgentId then
          .error ("research loop not accessible: " ++ id)
        else .ok loop

/-- Parameters of the `checkpoint` action after transport-level reads
(`readStringParam` / `readNumberParam`); `summary` is required. -/
structure CheckpointParams where
  loopId : Option String
  summary : String
  critique : Option String
  recommendation : Option ResearchLoopRecommendation
  proposedTasks : Option (List String)
  importance : Option Int
  urgency : Option Int
  confidence : Option Int
  evidenceQuality : Option Int
  citationLinks : Option (List String)
  counterpoints : Option (List String)
  whyNow : Option String
deriving DecidableEq, Repr

/-- The `checkpoint` action.  The source falls back to a raw
`readStringArrayParam` read when sanitization yields `undefined`; that shared
helper lives outside these sources and returns `undefined` for the inputs in
scope here, so the sanitized value is used directly. -/
def checkpointOp (registry : ResearchLoopRegistry) (requesterAgentId : String)
    (params : CheckpointParams) (now : Int) :
    ResponseEnvelope × ResearchLoopRegistry :=
  let recommendation := normalizeRecommendation params.recommendation
  let proposedTasks := sanitizeProposedTasks params.proposedTasks
  let importance := normalizeRating params.importance
  let urgency := normalizeRating params.urgency
  let confidence := normalizeRating params.confidence
  let evidenceQuality := normalizeRating params.evidenceQuality
  let citationLinks := sanitizeStringList params.citationLinks 20 500
  let counterpoints := sanitizeStringList params.counterpoints 10 280
  let whyNow := sanitizeWhyNow params.whyNow
  let priorityScore :=
    match importance, urgency with
    | some i, some u => some (i * u)
    | _, _ => none
  let analysisQualityScore :=
    computeResearchLoopAnalysisQualityScore
      { summary := params.summary
        critique := params.critique
        proposedTasks
        evidenceQuality
        citationLinks
        counterpoints
        whyNow }
  match getLoopOrError registry params.loopId requesterAgentId with
  | .error e => (errorEnvelope e, registry)
  | .ok loop =>
    if loop.state = .closed then (errorEnvelope "loop is closed", registry)
    else if loop.state ≠ .active then
      (errorEnvelope
        ("loop must be active to checkpoint (current state: "
          ++ stateToString loop.state ++ ")"),
        registry)
    else
      let updated : ResearchLoopRecord :=
        { loop with
          checkpoints :=
            loop.checkpoints ++
              [{ round := loop.currentRound
                 summary := params.summary
                 critique := params.critique
                 recommendation
                 proposedTasks
                 importance
                 urgency
                 confidence
                 evidenceQuality
                 citationLinks
                 counterpoints
                 whyNow
                 analysisQualityScore := some analysisQualityScore
                 priorityScore
                 createdAt := now }]
          state := .awaiting_decision
          updatedAt := now }
      let canContinue : Bool :=
        recommendation == .cont && decide (loop.currentRound < loop.maxRounds)
      ({ status := "checkpointed"
         loop := some (toLoopDetails updated)
         canContinue := some canContinue
         spawnAdvice := some (buildSpawnAdvice updated canContinue) },
        setLoop registry (params.loopId.getD "") updated)

/-- The `continue` action. -/
def continueOp (registry : ResearchLoopRegistry) (requesterAgentId : String)
    (loopId : Option String) (reason : Option String) (now : Int) :
    ResponseEnvelope × ResearchLoopRegistry :=
  match getLoopOrError registry loopId requesterAgentId with
  | .error e => (errorEnvelope e, registry)
  | .ok loop =>
    if loop.state = .closed then (errorEnvelope "loop is closed", registry)
    else if loop.state ≠ .awaiting_decision then
      (errorEnvelope
        ("loop is not awaiting_decision (current state: "
          ++ stateToString loop.state ++ ")"),
        registry)
    else if loop.currentRound ≥ loop.maxRounds then
      (errorEnvelope
        ("cannot continue: max rounds reached (" ++ toString loop.maxRounds ++ ")"),
        registry)
    else
      let updated : ResearchLoopRecord :=
        { loop with
          decisions :=
            loop.decisions ++
              [{ round := loop.currentRound
                 decision := .cont
                 reason
                 createdAt := now }]
          currentRound := loop.currentRound + 1
          state := .active
          updatedAt := now }
      ({ status := "continued", loop := some (toLoopDetails updated) },
        setLoop registry (loopId.getD "") updated)

/-- The `status` action (read-only). -/
def statusOp (registry : ResearchLoopRegistry) (requesterAgentId : String)
    (loopId : Option String) : ResponseEnvelope :=
  match getLoopOrError registry loopId requesterAgentId with
  | .error e => errorEnvelope e
  | .ok loop => { status := "ok", loop := some (toLoopDetails loop) }

/-- The `close` action. -/
def closeOp (registry : ResearchLoopRegistry) (requesterAgentId : String)
    (loopId : Option String) (reason : Option String) (now : Int) :
    ResponseEnvelope × ResearchLoopRegistry :=
  match getLoopOrError registry loopId requesterAgentId with
  | .error e => (errorEnvelope e, registry)
  | .ok loop =>
    let updated : ResearchLoopRecord :=
      if loop.state ≠ .closed then
        { loop with
          state := .closed
          closedAt := some now
          closeReason := reason
          updatedAt := now
          decisions :=
            loop.decisions ++
              [{ round := loop.currentRound
                 decision := .close
                 reason
                 createdAt := now }] }
      else loop
    ({ status := "closed", loop := some (toLoopDetails updated) },
      setLoop registry (loopId.getD "") updated)

/-! ## The `list` action -/

/-- Sort key used by the `hot` comparator: (last priority score, last
analysis-quality score, `updatedAt`), each descending, `undefined` scores as 0. -/
def hotSortKey (loop : ResearchLoopRecord) : Int × Int × Int :=
  (resolveLatestPriorityScore loop, resolveLatestAnalysisQualityScore loop, loop.updatedAt)

/-- Relation: `a` may precede `b` under the `hot` comparator (priority desc, then
quality desc, then `updatedAt` desc). -/
def hotBefore (a b : ResearchLoopRecord) : Prop :=
  (hotSortKey a).1 > (hotSortKey b).1 ∨
    ((hotSortKey a).1 = (hotSortKey b).1 ∧
      ((hotSortKey a).2.1 > (hotSortKey b).2.1 ∨
        ((hotSortKey a).2.1 = (hotSortKey b).2.1 ∧ (hotSortKey a).2.2 ≥ (hotSortKey b).2.2)))

instance : DecidableRel hotBefore := fun a b => by
  unfold hotBefore
  infer_instance

instance : IsTotal ResearchLoopRecord hotBefore := by
  constructor
  intro a b
  unfold hotBefore
  omega

instance : IsTrans ResearchLoopRecord hotBefore := by
  constructor
  intro a b c
  unfold hotBefore
  omega

/-- Relation: `a` may precede `b` under the default comparator (`updatedAt` descending). -/
def updatedBefore (a b : ResearchLoopRecord) : Prop :=
  a.updatedAt ≥ b.updatedAt

instance : DecidableRel updatedBefore := fun a b => by
  unfold updatedBefore
  infer_instance

instance : IsTotal ResearchLoopRecord updatedBefore := by
  constructor
  intro a b
  unfold updatedBefore
  omega

instance : IsTrans ResearchLoopRecord updatedBefore := by
  constructor
  intro a b c
  unfold updatedBefore
  omega

/-- Ownership filter, optional state filter, then the view filter. -/
def listCandidateLoops (registry : ResearchLoopRegistry) (requesterAgentId : String)
    (stateFilter : Option ResearchLoopState) (view : ResearchLoopListView)
    (staleCutoff : Int) : List ResearchLoopRecord :=
  let owned := (registryLoops registry).filter
    (fun loop => loop.ownerAgentId == requesterAgentId)
  let stateFiltered :=
    match stateFilter with
    | some s => owned.filter (fun loop => loop.state == s)
    | none => owned
  match view with
  | .needs_decision =>
    stateFiltered.filter (fun loop => loop.state == .awaiting_decision)
  | .needs_review =>
    stateFiltered.filter
      (fun loop => loop.state == .awaiting_decision && checkpointNeedsReview loop)
  | .hot => stateFiltered.filter (fun loop => loop.state == .awaiting_decision)
  | .stale =>
    stateFiltered.filter
      (fun loop => loop.state == .active && decide (loop.updatedAt ≤ staleCutoff))
  | .all => stateFiltered

/-- The sort applied by `list`: the `hot` comparator for `view = hot`, the
`updatedAt`-descending comparator otherwise (stable, as `Array.sort`). -/
def listSortedLoops (view : ResearchLoopListView)
    (loops : List ResearchLoopRecord) : List ResearchLoopRecord :=
  if view = .hot then List.insertionSort hotBefore loops
  else List.insertionSort updatedBefore loops

/-- The loops selected by `list` before projection: filter, sort, then
`slice(0, limit)`. -/
def listSelectedLoops (registry : ResearchLoopRegistry) (requesterAgentId : String)
    (stateFilter : Option ResearchLoopState) (view : ResearchLoopListView)
    (staleHoursRaw limitRaw : Option Int) (now : Int) : List ResearchLoopRecord :=
  let staleHours := normalizeStaleHours staleHoursRaw
  let staleCutoff := now - staleHours * 3600000
  (listSortedLoops view
      (listCandidateLoops registry requesterAgentId stateFilter view staleCutoff)).take
    (effectiveListLimit limitRaw).toNat

/-- The `list` action (read-only). -/
def listOp (registry : ResearchLoopRegistry) (requesterAgentId : String)
    (stateFilter : Option ResearchLoopState) (viewRaw : Option ResearchLoopListView)
    (staleHoursRaw limitRaw : Option Int) (now : Int) : ResponseEnvelope :=
  let view := viewRaw.getD .all
  { status := "ok"
    loops := some
      ((listSelectedLoops registry requesterAgentId stateFilter view staleHoursRaw
          limitRaw now).map toLoopListEntry) }

/-- Whether a loop passes the optional `state` filter of `list`. -/
def stateMatches (stateFilter : Option ResearchLoopState) (loop : ResearchLoopRecord) : Bool :=
  match stateFilter with
  | none => true
  | some s => loop.state == s

/-- The record produced by a first `close` on a non-closed loop: state
`closed`, `closedAt`/`closeReason`/`updatedAt` stamped, and one appended
`close` decision tagged with the current round. -/
def closedLoopRecord (L : ResearchLoopRecord) (reason : Option String)
    (now : Int) : ResearchLoopRecord :=
  { L with
    state := .closed
    closedAt := some now
    closeReason := reason
    updatedAt := now
    decisions := L.decisions ++
      [{ round := L.currentRound, decision := .close, reason, createdAt := now }] }

/-! ## Concrete fixtures used by counterexamples and witnesses -/

/-- A syntactically valid persisted loop record whose `maxRounds` field holds
50, above the documented cap of 20. -/
def rawLoopOverCap : RawLoopRecord :=
  { loopId := "loop-over-cap"
    topic := "over-cap topic"
    ownerAgentId := some "agent:main:main"
    state := some "active"
    currentRound := some 1
    maxRounds := some 50
    priority := some "normal"
    createdAt := some 0
    updatedAt := some 0
    startedBySessionKey := none
    closedAt := none
    closeReason := none
    checkpoints := []
    decisions := [] }

/-- An input whose trim-then-truncate normalization leaves trailing
whitespace: one leading character, 279 spaces, then a final character. -/
def truncationGapInput : String := "a" ++ ⟨List.replicate 279 ' '⟩ ++ "b"

/-- A loop owned by agent beta, used to exercise cross-agent access. -/
def betaLoop : ResearchLoopRecord :=
  { loopId := "loop-beta"
    topic := "Beta private topic"
    ownerAgentId := "agent:beta:main"
    state := .active
    currentRound := 1
    maxRounds := 2
    priority := .normal
    createdAt := 0
    updatedAt := 0
    startedBySessionKey := some "agent:beta:main"
    closedAt := none
    closeReason := none
    checkpoints := []
    decisions := [] }

def betaRegistry : ResearchLoopRegistry := [("loop-beta", betaLoop)]

/-- Checkpoint parameters addressed at `betaLoop`. -/
def betaCheckpointParams : CheckpointParams :=
  { loopId := some "loop-beta"
    summary := "short"
    critique := none
    recommendation := some .cont
    proposedTasks := none
    importance := none
    urgency := none
    confidence := none
    evidenceQuality := none
    citationLinks := none
    counterpoints := none
    whyNow := none }

/-- An owned loop awaiting a decision with one round of headroom. -/
def awaitingLoop : ResearchLoopRecord :=
  { loopId := "loop-await"
    topic := "Awaiting topic"
    ownerAgentId := "agent:main:main"
    state := .awaiting_decision
    currentRound := 1
    maxRounds := 2
    priority := .normal
    createdAt := 0
    updatedAt := 0
    startedBySessionKey := none
    closedAt := none
    closeReason := none
    checkpoints := []
    decisions := [] }

def awaitingRegistry : ResearchLoopRegistry := [("loop-await", awaitingLoop)]

/-- An owned loop awaiting a decision with the round cap already reached. -/
def cappedLoop : ResearchLoopRecord :=
  { awaitingLoop with
    loopId := "loop-capped"
    currentRound := 2 }

def cappedRegistry : ResearchLoopRegistry := [("loop-capped", cappedLoop)]

/-- A checkpoint meeting every spawn-advice condition: recommendation
continue, a proposed task, quality 68 ≥ 40, confidence 3 < 4, priority
score 25 ≥ 12. -/
def spawnCheckpoint : ResearchLoopCheckpointRecord :=
  { round := 1
    summary := "Signals are mixed."
    critique := some "Replication evidence is weak."
    recommendation := .cont
    proposedTasks := some ["Verify third-party benchmarks", "Gather contradictory results"]
    importance := some 5
    urgency := some 5
    confidence := some 3
    evidenceQuality := some 4
    citationLinks := some ["https://example.com/a", "https://example.com/b"]
    counterpoints := some ["Benchmark setup may be cherry-picked."]
    whyNow := some "Affects deployment this week."
    analysisQualityScore := some 68
    priorityScore := some 25
    createdAt := 5 }

/-- A loop whose last checkpoint is `spawnCheckpoint`. -/
def spawnLoop : ResearchLoopRecord :=
  { betaLoop with
    loopId := "loop-spawn"
    ownerAgentId := "agent:main:main"
    state := .awaiting_decision
    checkpoints := [spawnCheckpoint] }

/-- An owned loop with no checkpoints at all. -/
def uncheckpointedLoop : ResearchLoopRecord :=
  { betaLoop with
    loopId := "loop-empty"
    ownerAgentId := "agent:main:main"
    checkpoints := [] }

/-! ## Helper lemmas -/

theorem findLoop_setLoop (registry : ResearchLoopRegistry) (loopId : String)
    (L X : ResearchLoopRecord) (h : findLoop registry loopId = some L) :
    findLoop (setLoop registry loopId X) loopId = some X := by
  induction registry with
  | nil => simp [findLoop] at h
  | cons entry rest ih =>
    by_cases hkey : entry.1 = loopId
    · simp [setLoop, hkey, findLoop]
    · have hkey' : (entry.1 == loopId) = false := by
        simp [hkey]
      simp only [findLoop, List.find?_cons, hkey'] at h
      simp only [setLoop, if_neg hkey, findLoop, List.find?_cons, hkey']
      exact ih h

theorem setLoop_self (registry : ResearchLoopRegistry) (loopId : String)
    (L : ResearchLoopRecord) (h : findLoop registry loopId = some L) :
    setLoop registry loopId L = registry := by
  induction registry with
  | nil => rfl
  | cons entry rest ih =>
    by_cases hkey : entry.1 = loopId
    · have hkey' : (entry.1 == loopId) = true := by simp [hkey]
      simp only [findLoop, List.find?_cons, hkey', Option.map_some] at h
      have h2 : entry.2 = L := Option.some_inj.mp h
      simp only [setLoop, if_pos hkey]
      rw [← hkey, ← h2, Prod.mk.eta]
    · have hkey' : (entry.1 == loopId) = false := by simp [hkey]
      simp only [findLoop, List.find?_cons, hkey'] at h
      simp [setLoop, hkey, ih h]

theorem mem_listSortedLoops (view : ResearchLoopListView)
    (loops : List ResearchLoopRecord) (M : ResearchLoopRecord) :
    M ∈ listSortedLoops view loops ↔ M ∈ loops := by
  unfold listSortedLoops
  split
  · exact (List.perm_insertionSort hotBefore loops).mem_iff
  · exact (List.perm_insertionSort updatedBefore loops).mem_iff

theorem mem_of_mem_listSelectedLoops (registry : ResearchLoopRegistry)
    (requesterAgentId : String) (stateFilter : Option ResearchLoopState)
    (view : ResearchLoopListView) (staleHoursRaw limitRaw : Option Int) (now : Int)
    (M : ResearchLoopRecord)
    (h : M ∈ listSelectedLoops registry requesterAgentId stateFilter view
      staleHoursRaw limitRaw now) :
    M ∈ listCandidateLoops registry requesterAgentId stateFilter view
      (now - normalizeStaleHours staleHoursRaw * 3600000) := by
  unfold listSelectedLoops at h
  exact (mem_listSortedLoops view _ M).mp (List.mem_of_mem_take h)

theorem mem_listCandidateLoops_iff (registry : ResearchLoopRegistry)
    (requesterAgentId : String) (stateFilter : Option ResearchLoopState)
    (view : ResearchLoopListView) (staleCutoff : Int) (M : ResearchLoopRecord) :
    M ∈ listCandidateLoops registry requesterAgentId stateFilter view staleCutoff ↔
      (M ∈ registryLoops registry ∧ M.ownerAgentId = requesterAgentId ∧
        stateMatches stateFilter M = true ∧
        (match view with
         | .needs_decision => M.state = .awaiting_decision
         | .needs_review =>
           M.state = .awaiting_decision ∧ checkpointNeedsReview M = true
         | .hot => M.state = .awaiting_decision
         | .stale => M.state = .active ∧ M.updatedAt ≤ staleCutoff
         | .all => True)) := by
  unfold listCandidateLoops stateMatches
  cases view <;> cases stateFilter <;>
    simp [List.mem_filter] <;> tauto

/-! ## Claim theorems -/

/-- C3: for every checkpoint input, `analysisQualityScore` is a pure
deterministic function equal to the rounded sum, clamped to [0, 100], of the
documented contributions (summary length tier 20/16/12/8/0, +20 non-empty
critique, +25 for ≥3 citation links or +15 for ≥1, +15 for ≥2 counterpoints
or +10 for exactly 1, +10 for ≥2 proposed tasks or +6 for exactly 1,
+2 × `evidenceQuality` when present, +5 for a non-empty `whyNow`); the result
always lies in [0, 100]. -/
theorem analysis_quality_score_spec (input : AnalysisQualityInput) :
    computeResearchLoopAnalysisQualityScore input = specAnalysisQualityScore input ∧
    0 ≤ computeResearchLoopAnalysisQualityScore input ∧
    computeResearchLoopAnalysisQualityScore input ≤ 100 := by
  have hspec : specAnalysisQualityScore input =
      min 100 (max 0 (analysisQualityTotal input)) := rfl
  unfold computeResearchLoopAnalysisQualityScore
  dsimp only
  rw [hspec]
  refine ⟨?_, ?_, ?_⟩ <;> omega

/-- C7 (counterexample): loading a persisted document whose `maxRounds` is 50
yields a loop record with `maxRounds = 50`: the load path applies
`Math.max(1, Math.floor(...))` but no upper clamp, so a loaded record can
exceed 20. -/
theorem load_maxRounds_exceeds_cap :
    (loadLoopRecord (fun a => a) "main" rawLoopOverCap 0).maxRounds = 50 ∧
    ¬ (loadLoopRecord (fun a => a) "main" rawLoopOverCap 0).maxRounds ≤ 20 := by
  constructor
  · rfl
  · decide

/-- C7 (amended): `normalizeMaxRounds` — applied to the tool's `start` input,
the only write path for `maxRounds` — floors and clamps to [1, 20] with
default 2; the load path only floors and clamps below to at least 1 (default
2) and performs no upper clamp, so a persisted value above 20 survives
loading. -/
theorem maxRounds_normalization (v : Int) (vOpt : Option Int)
    (normAgent : String → String) (defaultAgentId : String)
    (record : RawLoopRecord) (now : Int) :
    normalizeMaxRounds none = 2 ∧
    normalizeMaxRounds (some v) = min 20 (max 1 v) ∧
    1 ≤ normalizeMaxRounds vOpt ∧
    normalizeMaxRounds vOpt ≤ 20 ∧
    (loadLoopRecord normAgent defaultAgentId record now).maxRounds =
      (match record.maxRounds with
       | none => 2
       | some w => max 1 w) ∧
    1 ≤ (loadLoopRecord normAgent defaultAgentId record now).maxRounds := by
  refine ⟨rfl, ?_, ?_, ?_, ?_, ?_⟩
  · unfold normalizeMaxRounds
    dsimp only
    omega
  · rcases vOpt with _ | w
    · simp [normalizeMaxRounds]
    · simp only [normalizeMaxRounds]
      omega
  · rcases vOpt with _ | w
    · simp [normalizeMaxRounds]
    · simp only [normalizeMaxRounds]
      omega
  · rcases hmr : record.maxRounds with _ | w <;>
      simp [loadLoopRecord, hmr]
  · rcases hmr : record.maxRounds with _ | w
    · simp [loadLoopRecord, hmr]
    · simp only [loadLoopRecord, hmr]
      omega

set_option maxRecDepth 4000 in
/-- C8 (code evaluated at the failing input): the checkpoint normalizers are
not idempotent.  `normalizeWhyNow` trims and then truncates to 280
characters; on `"a" ++ 279 spaces ++ "b"` the truncation cuts after the
spaces, so a second normalization trims down to `"a"`.  The same happens to
each entry of `normalizeStringList` (here at the `counterpoints` caps 10/280),
so re-loading an already-normalized registry document changes these fields. -/
theorem normalization_not_idempotent :
    normalizeWhyNow (some truncationGapInput) =
      some ("a" ++ ⟨List.replicate 279 ' '⟩) ∧
    normalizeWhyNow (normalizeWhyNow (some truncationGapInput)) = some "a" ∧
    normalizeWhyNow (normalizeWhyNow (some truncationGapInput)) ≠
      normalizeWhyNow (some truncationGapInput) ∧
    normalizeStringList (some [truncationGapInput]) 10 280 =
      some ["a" ++ ⟨List.replicate 279 ' '⟩] ∧
    normalizeStringList (normalizeStringList (some [truncationGapInput]) 10 280) 10 280 =
      some ["a"] ∧
    normalizeStringList
        (normalizeStringList (some [truncationGapInput]) 10 280) 10 280 ≠
      normalizeStringList (some [truncationGapInput]) 10 280 := by
  refine ⟨by decide, by decide, by decide, by decide, by decide, by decide⟩

/-- C9 (counterexample): a supplied `list` limit of 0 is falsy in JavaScript,
so the effective limit is the default 20, not the clamp result 1 that the
claim states. -/
theorem list_limit_zero_counterexample :
    effectiveListLimit (some 0) = 20 ∧ effectiveListLimit (some 0) ≠ 1 := by
  constructor <;> decide

/-- C9 (amended): the `list` limit defaults to 20 when absent, non-numeric or
zero; any nonzero numeric limit is clamped into [1, 100] (so 500 yields 100
and -5 yields 1); the number of loops returned never exceeds the effective
limit. -/
theorem list_limit_spec (v : Int) (hv : v ≠ 0)
    (registry : ResearchLoopRegistry) (requesterAgentId : String)
    (stateFilter : Option ResearchLoopState) (view : ResearchLoopListView)
    (staleHoursRaw limitRaw : Option Int) (now : Int) :
    effectiveListLimit none = 20 ∧
    effectiveListLimit (some v) = min 100 (max 1 v) ∧
    effectiveListLimit (some 0) = 20 ∧
    effectiveListLimit (some 500) = 100 ∧
    (listSelectedLoops registry requesterAgentId stateFilter view staleHoursRaw
        limitRaw now).length ≤ (effectiveListLimit limitRaw).toNat := by
  refine ⟨rfl, ?_, rfl, rfl, ?_⟩
  · simp [effectiveListLimit, hv]
  · unfold listSelectedLoops
    exact List.length_take_le _ _

/-- C9 witness. -/
theorem list_limit_spec_witness :
    (500 : Int) ≠ 0 ∧
    (effectiveListLimit none = 20 ∧
      effectiveListLimit (some 500) = min 100 (max 1 500) ∧
      effectiveListLimit (some 0) = 20 ∧
      effectiveListLimit (some 500) = 100 ∧
      (listSelectedLoops [] "agent:main:main" none .all none (some 500)
          0).length ≤ (effectiveListLimit (some 500)).toNat) :=
  ⟨by decide,
    list_limit_spec 500 (by decide) [] "agent:main:main" none .all none (some 500) 0⟩

/-- C1: for a loop `L` owned by agent `B` and any requester `A ≠ B`, the
`checkpoint`, `continue`, `status` and `close` operations on `L`'s loop id
all return the error envelope `research loop not accessible: <loopId>` (the
distinct not-accessible error, not the not-found error) and leave the
registry — hence `L` — unchanged, and `L` is never among the loops selected
by `A`'s `list` under any view or state filter. -/
theorem agent_isolation (registry : ResearchLoopRegistry)
    (id requesterAgentId : String) (L : ResearchLoopRecord)
    (params : CheckpointParams) (continueReason closeReason : Option String)
    (nowCheckpoint nowContinue nowClose : Int)
    (stateFilter : Option ResearchLoopState) (view : ResearchLoopListView)
    (staleHoursRaw limitRaw : Option Int) (nowList : Int)
    (hfind : findLoop registry id = some L)
    (hown : L.ownerAgentId ≠ requesterAgentId)
    (hid : id ≠ "")
    (hparams : params.loopId = some id) :
    checkpointOp registry requesterAgentId params nowCheckpoint =
      (errorEnvelope ("research loop not accessible: " ++ id), registry) ∧
    continueOp registry requesterAgentId (some id) continueReason nowContinue =
      (errorEnvelope ("research loop not accessible: " ++ id), registry) ∧
    statusOp registry requesterAgentId (some id) =
      errorEnvelope ("research loop not accessible: " ++ id) ∧
    closeOp registry requesterAgentId (some id) closeReason nowClose =
      (errorEnvelope ("research loop not accessible: " ++ id), registry) ∧
    L ∉ listSelectedLoops registry requesterAgentId stateFilter view
      staleHoursRaw limitRaw nowList := by
  have hge : getLoopOrError registry (some id) requesterAgentId =
      .error ("research loop not accessible: " ++ id) := by
    simp [getLoopOrError, hid, hfind, hown]
  refine ⟨?_, ?_, ?_, ?_, ?_⟩
  · simp [checkpointOp, hparams, hge]
  · simp [continueOp, hge]
  · simp [statusOp, hge]
  · simp [closeOp, hge]
  · intro hmem
    exact hown
      ((mem_listCandidateLoops_iff registry requesterAgentId stateFilter view
          (nowList - normalizeStaleHours staleHoursRaw * 3600000) L).mp
        (mem_of_mem_listSelectedLoops registry requesterAgentId stateFilter view
          staleHoursRaw limitRaw nowList L hmem)).2.1

/-- C1 witness: agent alpha is denied every operation on agent beta's loop. -/
theorem agent_isolation_witness :
    (findLoop betaRegistry "loop-beta" = some betaLoop ∧
      betaLoop.ownerAgentId ≠ "agent:alpha:main" ∧
      "loop-beta" ≠ "" ∧
      betaCheckpointParams.loopId = some "loop-beta") ∧
    (checkpointOp betaRegistry "agent:alpha:main" betaCheckpointParams 10 =
        (errorEnvelope ("research loop not accessible: " ++ "loop-beta"), betaRegistry) ∧
      continueOp betaRegistry "agent:alpha:main" (some "loop-beta") none 11 =
        (errorEnvelope ("research loop not accessible: " ++ "loop-beta"), betaRegistry) ∧
      statusOp betaRegistry "agent:alpha:main" (some "loop-beta") =
        errorEnvelope ("research loop not accessible: " ++ "loop-beta") ∧
      closeOp betaRegistry "agent:alpha:main" (some "loop-beta") none 12 =
        (errorEnvelope ("research loop not accessible: " ++ "loop-beta"), betaRegistry) ∧
      betaLoop ∉ listSelectedLoops betaRegistry "agent:alpha:main" none .all
        none none 13) :=
  ⟨⟨by decide, by decide, by decide, by decide⟩,
    agent_isolation betaRegistry "loop-beta" "agent:alpha:main" betaLoop
      betaCheckpointParams none none 10 11 12 none .all none none 13
      (by decide) (by decide) (by decide) (by decide)⟩

/-- C2: for an owned loop, `continue` succeeds iff the loop is in
`awaiting_decision` with `currentRound < maxRounds`; on success it appends
exactly one `continue` decision tagged with the pre-increment round,
increments `currentRound` by one, and returns the loop to `active`; when the
cap is reached it returns `cannot continue: max rounds reached (<maxRounds>)`
and the registry is unchanged. -/
theorem continue_spec (registry : ResearchLoopRegistry)
    (id requesterAgentId : String) (L : ResearchLoopRecord)
    (reason : Option String) (now : Int)
    (hfind : findLoop registry id = some L)
    (hown : L.ownerAgentId = requesterAgentId)
    (hid : id ≠ "") :
    ((continueOp registry requesterAgentId (some id) reason now).1.status = "continued" ↔
      (L.state = .awaiting_decision ∧ L.currentRound < L.maxRounds)) ∧
    (L.state = .awaiting_decision → L.currentRound < L.maxRounds →
      continueOp registry requesterAgentId (some id) reason now =
        ({ status := "continued"
           loop := some (toLoopDetails
             { L with
               decisions := L.decisions ++
                 [{ round := L.currentRound, decision := .cont, reason, createdAt := now }]
               currentRound := L.currentRound + 1
               state := .active
               updatedAt := now }) },
          setLoop registry id
            { L with
              decisions := L.decisions ++
                [{ round := L.currentRound, decision := .cont, reason, createdAt := now }]
              currentRound := L.currentRound + 1
              state := .active
              updatedAt := now })) ∧
    (L.state = .awaiting_decision → L.maxRounds ≤ L.currentRound →
      continueOp registry requesterAgentId (some id) reason now =
        (errorEnvelope
            ("cannot continue: max rounds reached (" ++ toString L.maxRounds ++ ")"),
          registry)) := by
  have hok : getLoopOrError registry (some id) requesterAgentId = .ok L := by
    simp [getLoopOrError, hid, hfind, hown]
  refine ⟨?_, ?_, ?_⟩
  · cases hs : L.state
    · simp [continueOp, hok, hs, errorEnvelope]
    · by_cases hcap : L.currentRound ≥ L.maxRounds
      · simp [continueOp, hok, hs, hcap, errorEnvelope]
      · simp [continueOp, hok, hs, hcap, errorEnvelope]
        omega
    · simp [continueOp, hok, hs, errorEnvelope]
  · intro hs hlt
    have hcap : ¬ L.currentRound ≥ L.maxRounds := by omega
    simp [continueOp, hok, hs, hcap]
  · intro hs hge
    have hcap : L.currentRound ≥ L.maxRounds := hge
    simp [continueOp, hok, hs, hcap]

/-- C2 witness: the success branch on `awaitingLoop` (round 1 of 2) and the
cap-reached error on `cappedLoop` (round 2 of 2). -/
theorem continue_spec_witness :
    (findLoop awaitingRegistry "loop-await" = some awaitingLoop ∧
      awaitingLoop.ownerAgentId = "agent:main:main" ∧
      "loop-await" ≠ "" ∧
      awaitingLoop.state = .awaiting_decision ∧
      awaitingLoop.currentRound < awaitingLoop.maxRounds) ∧
    continueOp awaitingRegistry "agent:main:main" (some "loop-await") (some "go") 7 =
      ({ status := "continued"
         loop := some (toLoopDetails
           { awaitingLoop with
             decisions := awaitingLoop.decisions ++
               [{ round := awaitingLoop.currentRound, decision := .cont,
                  reason := some "go", createdAt := 7 }]
             currentRound := awaitingLoop.currentRound + 1
             state := .active
             updatedAt := 7 }) },
        setLoop awaitingRegistry "loop-await"
          { awaitingLoop with
            decisions := awaitingLoop.decisions ++
              [{ round := awaitingLoop.currentRound, decision := .cont,
                 reason := some "go", createdAt := 7 }]
            currentRound := awaitingLoop.currentRound + 1
            state := .active
            updatedAt := 7 }) ∧
    continueOp cappedRegistry "agent:main:main" (some "loop-capped") none 8 =
      (errorEnvelope
          ("cannot continue: max rounds reached (" ++ toString cappedLoop.maxRounds ++ ")"),
        cappedRegistry) :=
  ⟨⟨by decide, by decide, by decide, by decide, by decide⟩,
    (continue_spec awaitingRegistry "loop-await" "agent:main:main" awaitingLoop
        (some "go") 7 (by decide) (by decide) (by decide)).2.1 (by decide) (by decide),
    (continue_spec cappedRegistry "loop-capped" "agent:main:main" cappedLoop
        none 8 (by decide) (by decide) (by decide)).2.2 (by decide) (by decide)⟩

/-- C4: `spawnAdvice.shouldSpawn` is true iff the loop's last checkpoint
recommends continue, `canContinue` holds, a first proposed task exists (and is
returned as `suggestedTask`), the quality score is at least 40, confidence is
missing or below 4, and the priority score is at least 12 or the loop priority
is high; when false, `reason` names the first failing condition in exactly
that order. -/
theorem spawn_advice_spec (loop : ResearchLoopRecord) (canContinue : Bool)
    (c : ResearchLoopCheckpointRecord)
    (hlast : loop.checkpoints.getLast? = some c) :
    ((buildSpawnAdvice loop canContinue).shouldSpawn = true ↔
      (c.recommendation = .cont ∧ canContinue = true ∧
        (c.proposedTasks.bind List.head?).isSome = true ∧
        c.analysisQualityScore.getD 0 ≥ 40 ∧
        (c.confidence = none ∨ c.confidence.getD 0 < 4) ∧
        (c.priorityScore.getD 0 ≥ 12 ∨ loop.priority = .high))) ∧
    ((buildSpawnAdvice loop canContinue).shouldSpawn = true →
      (buildSpawnAdvice loop canContinue).suggestedTask =
        c.proposedTasks.bind List.head?) ∧
    (c.recommendation ≠ .cont →
      (buildSpawnAdvice loop canContinue).reason =
        "Checkpoint recommendation is not continue.") ∧
    (c.recommendation = .cont → canContinue = false →
      (buildSpawnAdvice loop canContinue).reason =
        "Max rounds reached; review or close.") ∧
    (c.recommendation = .cont → canContinue = true →
      c.proposedTasks.bind List.head? = none →
      (buildSpawnAdvice loop canContinue).reason =
        "No proposed tasks to delegate.") ∧
    (c.recommendation = .cont → canContinue = true →
      (c.proposedTasks.bind List.head?).isSome = true →
      c.analysisQualityScore.getD 0 < 40 →
      (buildSpawnAdvice loop canContinue).reason =
        "Analysis quality is too low; improve checkpoint quality first.") ∧
    (c.recommendation = .cont → canContinue = true →
      (c.proposedTasks.bind List.head?).isSome = true →
      c.analysisQualityScore.getD 0 ≥ 40 →
      c.confidence ≠ none → c.confidence.getD 0 ≥ 4 →
      (buildSpawnAdvice loop canContinue).reason =
        "Confidence is already high; delegation is optional.") ∧
    (c.recommendation = .cont → canContinue = true →
      (c.proposedTasks.bind List.head?).isSome = true →
      c.analysisQualityScore.getD 0 ≥ 40 →
      (c.confidence = none ∨ c.confidence.getD 0 < 4) →
      ¬ (c.priorityScore.getD 0 ≥ 12 ∨ loop.priority = .high) →
      (buildSpawnAdvice loop canContinue).reason =
        "Priority score is below delegation threshold.") := by
  cases canContinue <;>
    rcases hconf : c.confidence with _ | cv <;>
    rcases ht : c.proposedTasks.bind List.head? with _ | task <;>
    simp only [buildSpawnAdvice, hlast, ht, hconf] <;>
    split_ifs <;>
    refine ⟨?_, ?_, ?_, ?_, ?_, ?_, ?_, ?_⟩ <;>
    simp_all

/-- C4 witness: on `spawnLoop` (whose last checkpoint meets every condition)
the advice is positive and suggests the first proposed task. -/
theorem spawn_advice_spec_witness :
    spawnLoop.checkpoints.getLast? = some spawnCheckpoint ∧
    (buildSpawnAdvice spawnLoop true).shouldSpawn = true ∧
    (buildSpawnAdvice spawnLoop true).suggestedTask =
      spawnCheckpoint.proposedTasks.bind List.head? :=
  ⟨by decide,
    (spawn_advice_spec spawnLoop true spawnCheckpoint (by decide)).1.mpr (by decide),
    (spawn_advice_spec spawnLoop true spawnCheckpoint (by decide)).2.1
      ((spawn_advice_spec spawnLoop true spawnCheckpoint (by decide)).1.mpr (by decide))⟩

/-- C5: `close` on an owned loop is accepted from any non-closed state —
setting `closed`, recording `closedAt`, and appending exactly one `close`
decision — while closing an already-closed loop mutates nothing yet still
returns a success envelope with status `closed` carrying the current record;
hence applying `close` twice leaves the same final registry as applying it
once, and the second call still reports `closed`. -/
theorem close_idempotent (registry : ResearchLoopRegistry)
    (id requesterAgentId : String) (L : ResearchLoopRecord)
    (reason reason2 : Option String) (now now2 : Int)
    (hfind : findLoop registry id = some L)
    (hown : L.ownerAgentId = requesterAgentId)
    (hid : id ≠ "") :
    (L.state ≠ .closed →
      closeOp registry requesterAgentId (some id) reason now =
        ({ status := "closed"
           loop := some (toLoopDetails (closedLoopRecord L reason now)) },
          setLoop registry id (closedLoopRecord L reason now))) ∧
    (L.state = .closed →
      closeOp registry requesterAgentId (some id) reason now =
        ({ status := "closed", loop := some (toLoopDetails L) }, registry)) ∧
    (closeOp (closeOp registry requesterAgentId (some id) reason now).2
        requesterAgentId (some id) reason2 now2).2 =
      (closeOp registry requesterAgentId (some id) reason now).2 ∧
    (closeOp (closeOp registry requesterAgentId (some id) reason now).2
        requesterAgentId (some id) reason2 now2).1.status = "closed" := by
  have hok : getLoopOrError registry (some id) requesterAgentId = .ok L := by
    simp [getLoopOrError, hid, hfind, hown]
  have hsecond : ∀ reg1 : ResearchLoopRegistry, ∀ L1 : ResearchLoopRecord,
      findLoop reg1 id = some L1 → L1.ownerAgentId = requesterAgentId →
      L1.state = .closed →
      (closeOp reg1 requesterAgentId (some id) reason2 now2).2 = reg1 ∧
      (closeOp reg1 requesterAgentId (some id) reason2 now2).1.status = "closed" := by
    intro reg1 L1 hf1 ho1 hs1
    have hok1 : getLoopOrError reg1 (some id) requesterAgentId = .ok L1 := by
      simp [getLoopOrError, hid, hf1, ho1]
    constructor
    · simp [closeOp, hok1, hs1, setLoop_self reg1 id L1 hf1]
    · simp [closeOp, hok1]
  refine ⟨?_, ?_, ?_, ?_⟩
  · intro hne
    simp [closeOp, hok, hne, closedLoopRecord]
  · intro hcl
    simp [closeOp, hok, hcl, setLoop_self registry id L hfind]
  · by_cases hcl : L.state = .closed
    · have h1 : (closeOp registry requesterAgentId (some id) reason now).2 = registry := by
        simp [closeOp, hok, hcl, setLoop_self registry id L hfind]
      rw [h1]
      exact (hsecond registry L hfind hown hcl).1
    · have h1 : (closeOp registry requesterAgentId (some id) reason now).2 =
          setLoop registry id (closedLoopRecord L reason now) := by
        simp [closeOp, hok, hcl, closedLoopRecord]
      rw [h1]
      exact (hsecond (setLoop registry id (closedLoopRecord L reason now))
        (closedLoopRecord L reason now)
        (findLoop_setLoop registry id L (closedLoopRecord L reason now) hfind)
        hown rfl).1
  · by_cases hcl : L.state = .closed
    · have h1 : (closeOp registry requesterAgentId (some id) reason now).2 = registry := by
        simp [closeOp, hok, hcl, setLoop_self registry id L hfind]
      rw [h1]
      exact (hsecond registry L hfind hown hcl).2
    · have h1 : (closeOp registry requesterAgentId (some id) reason now).2 =
          setLoop registry id (closedLoopRecord L reason now) := by
        simp [closeOp, hok, hcl, closedLoopRecord]
      rw [h1]
      exact (hsecond (setLoop registry id (closedLoopRecord L reason now))
        (closedLoopRecord L reason now)
        (findLoop_setLoop registry id L (closedLoopRecord L reason now) hfind)
        hown rfl).2

/-- C5 witness: closing the active `betaLoop` as its owner, twice. -/
theorem close_idempotent_witness :
    (findLoop betaRegistry "loop-beta" = some betaLoop ∧
      betaLoop.ownerAgentId = "agent:beta:main" ∧
      "loop-beta" ≠ "" ∧ betaLoop.state ≠ .closed) ∧
    closeOp betaRegistry "agent:beta:main" (some "loop-beta") (some "done") 9 =
      ({ status := "closed"
         loop := some (toLoopDetails (closedLoopRecord betaLoop (some "done") 9)) },
        setLoop betaRegistry "loop-beta" (closedLoopRecord betaLoop (some "done") 9)) ∧
    (closeOp (closeOp betaRegistry "agent:beta:main" (some "loop-beta") (some "done") 9).2
        "agent:beta:main" (some "loop-beta") none 10).2 =
      (closeOp betaRegistry "agent:beta:main" (some "loop-beta") (some "done") 9).2 ∧
    (closeOp (closeOp betaRegistry "agent:beta:main" (some "loop-beta") (some "done") 9).2
        "agent:beta:main" (some "loop-beta") none 10).1.status = "closed" :=
  ⟨⟨by decide, by decide, by decide, by decide⟩,
    (close_idempotent betaRegistry "loop-beta" "agent:beta:main" betaLoop
        (some "done") none 9 10 (by decide) (by decide) (by decide)).1 (by decide),
    (close_idempotent betaRegistry "loop-beta" "agent:beta:main" betaLoop
        (some "done") none 9 10 (by decide) (by decide) (by decide)).2.2.1,
    (close_idempotent betaRegistry "loop-beta" "agent:beta:main" betaLoop
        (some "done") none 9 10 (by decide) (by decide) (by decide)).2.2.2⟩

/-- C6: the `hot` view selects exactly the requester's loops in
`awaiting_decision` (after any `state` filter); the selection is sorted by
the `hot` comparator — last priority score descending with `undefined` as 0,
then last analysis-quality score descending, then `updatedAt` descending —
and consequently the `lastPriorityScore` sequence of the returned entries is
non-increasing. -/
theorem hot_view_sorted (registry : ResearchLoopRegistry)
    (requesterAgentId : String) (stateFilter : Option ResearchLoopState)
    (staleHoursRaw limitRaw : Option Int) (now : Int) :
    (∀ M : ResearchLoopRecord,
      M ∈ listSortedLoops .hot
          (listCandidateLoops registry requesterAgentId stateFilter .hot
            (now - normalizeStaleHours staleHoursRaw * 3600000)) ↔
        (M ∈ registryLoops registry ∧ M.ownerAgentId = requesterAgentId ∧
          stateMatches stateFilter M = true ∧ M.state = .awaiting_decision)) ∧
    (listSelectedLoops registry requesterAgentId stateFilter .hot staleHoursRaw
        limitRaw now).Sorted hotBefore ∧
    List.Sorted (· ≥ ·)
      ((listSelectedLoops registry requesterAgentId stateFilter .hot staleHoursRaw
          limitRaw now).map resolveLatestPriorityScore) ∧
    List.Sorted (· ≥ ·)
      (((listOp registry requesterAgentId stateFilter (some .hot) staleHoursRaw
            limitRaw now).loops.getD []).map
        (fun entry => entry.lastPriorityScore.getD 0)) := by
  have hsel : (listSelectedLoops registry requesterAgentId stateFilter .hot
      staleHoursRaw limitRaw now).Sorted hotBefore := by
    unfold listSelectedLoops listSortedLoops
    dsimp only
    simp only [reduceIte]
    exact List.Pairwise.sublist (List.take_sublist _ _)
      (List.sorted_insertionSort hotBefore _)
  have hmap : List.Sorted (· ≥ ·)
      ((listSelectedLoops registry requesterAgentId stateFilter .hot staleHoursRaw
          limitRaw now).map resolveLatestPriorityScore) := by
    refine List.Pairwise.map resolveLatestPriorityScore ?_ hsel
    intro a b hab
    unfold hotBefore hotSortKey at hab
    dsimp only at hab
    omega
  refine ⟨?_, hsel, hmap, ?_⟩
  · intro M
    rw [mem_listSortedLoops]
    simpa using mem_listCandidateLoops_iff registry requesterAgentId stateFilter
      .hot (now - normalizeStaleHours staleHoursRaw * 3600000) M
  · simpa [listOp, List.map_map, Function.comp] using hmap

/-- C10: a loop whose checkpoints list is empty is never flagged for review:
`checkpointNeedsReview` returns false, its `list` projection reports
`needsReview = false`, and it never appears in the `needs_review` view. -/
theorem no_checkpoint_not_reviewed (loop : ResearchLoopRecord)
    (registry : ResearchLoopRegistry) (requesterAgentId : String)
    (stateFilter : Option ResearchLoopState) (staleHoursRaw limitRaw : Option Int)
    (now : Int) (hcp : loop.checkpoints = []) :
    checkpointNeedsReview loop = false ∧
    (toLoopListEntry loop).needsReview = false ∧
    loop ∉ listSelectedLoops registry requesterAgentId stateFilter .needs_review
      staleHoursRaw limitRaw now := by
  have hnone : loop.checkpoints.getLast? = none := by
    simp [hcp]
  refine ⟨?_, ?_, ?_⟩
  · simp [checkpointNeedsReview, hnone]
  · simp [toLoopListEntry, checkpointNeedsReview, hnone]
  · intro hmem
    obtain ⟨-, -, -, -, hrev⟩ :=
      (mem_listCandidateLoops_iff registry requesterAgentId stateFilter
          .needs_review (now - normalizeStaleHours staleHoursRaw * 3600000) loop).mp
        (mem_of_mem_listSelectedLoops registry requesterAgentId stateFilter
          .needs_review staleHoursRaw limitRaw now loop hmem)
    simp [checkpointNeedsReview, hnone] at hrev

/-- C10 witness: `uncheckpointedLoop` has no checkpoints and is not flagged. -/
theorem no_checkpoint_not_reviewed_witness :
    uncheckpointedLoop.checkpoints = [] ∧
    (checkpointNeedsReview uncheckpointedLoop = false ∧
      (toLoopListEntry uncheckpointedLoop).needsReview = false ∧
      uncheckpointedLoop ∉ listSelectedLoops
        [("loop-empty", uncheckpointedLoop)] "agent:main:main" none .needs_review
        none none 50) :=
  ⟨by decide,
    no_checkpoint_not_reviewed uncheckpointedLoop
      [("loop-empty", uncheckpointedLoop)] "agent:main:main" none none none 50
      (by decide)⟩

end OpenClaw
